import Mathlib

/-!
Verification of the neural-network modelling pipeline
(`scripts/09_redes_neuronales.py`).

The development shallowly embeds the pipeline's pure content:
cell values of the tabular dataset, the pandas category/code label
mapping, the Keras model builder's structural output, the
sklearn `ColumnTransformer` preprocessing (standard scaling plus
one-hot encoding with unknown categories ignored), the scenario
table builder, the scenario scorer's binary and multi-class
branches, and the per-model pipeline's artifact-writing sequence.
-/

namespace DataMining

/-- A cell value of the tabular dataset: a number, a string, or the
missing-value sentinel `NaN`. -/
inductive Val where
  | num (q : ℚ)
  | str (s : String)
  | nan
deriving DecidableEq

/-- Ordering on cell values, as numpy/pandas sorting orders the
uniform-typed columns the program feeds it: numbers by numeric value,
strings lexicographically.  Cross-constructor cases never arise in a
uniform column; they are ordered num < str < nan to keep the relation
total. -/
def Val.le : Val → Val → Prop
  | .num a, .num b => a ≤ b
  | .num _, .str _ => True
  | .num _, .nan => True
  | .str a, .str b => a.data < b.data ∨ a = b
  | .str _, .nan => True
  | .nan, .nan => True
  | _, _ => False

instance : DecidableRel Val.le := fun a b =>
  match a, b with
  | .num a, .num b => inferInstanceAs (Decidable (a ≤ b))
  | .num _, .str _ => inferInstanceAs (Decidable True)
  | .num _, .nan => inferInstanceAs (Decidable True)
  | .str a, .str b => inferInstanceAs (Decidable (a.data < b.data ∨ a = b))
  | .str _, .num _ => inferInstanceAs (Decidable False)
  | .str _, .nan => inferInstanceAs (Decidable True)
  | .nan, .num _ => inferInstanceAs (Decidable False)
  | .nan, .str _ => inferInstanceAs (Decidable False)
  | .nan, .nan => inferInstanceAs (Decidable True)

theorem strCase_total (a b : String) :
    (a.data < b.data ∨ a = b) ∨ (b.data < a.data ∨ b = a) := by
  rcases lt_trichotomy a.data b.data with h | h | h
  · exact Or.inl (Or.inl h)
  · exact Or.inl (Or.inr (String.ext h))
  · exact Or.inr (Or.inl h)

instance : IsTotal Val Val.le where
  total a b :=
    match a, b with
    | .num a, .num b => (le_total a b).imp id id
    | .num _, .str _ => Or.inl trivial
    | .num _, .nan => Or.inl trivial
    | .str _, .num _ => Or.inr trivial
    | .str a, .str b => strCase_total a b
    | .str _, .nan => Or.inl trivial
    | .nan, .num _ => Or.inr trivial
    | .nan, .str _ => Or.inr trivial
    | .nan, .nan => Or.inl trivial

theorem strCase_trans (a b c : String) (h1 : a.data < b.data ∨ a = b)
    (h2 : b.data < c.data ∨ b = c) : a.data < c.data ∨ a = c := by
  rcases h1 with h1 | rfl
  · rcases h2 with h2 | rfl
    · exact Or.inl (lt_trans h1 h2)
    · exact Or.inl h1
  · exact h2

instance : IsTrans Val Val.le where
  trans a b c hab hbc :=
    match a, b, c, hab, hbc with
    | .num _, .num _, .num _, hab, hbc => le_trans hab hbc
    | .num _, _, .str _, _, _ => trivial
    | .num _, _, .nan, _, _ => trivial
    | .str a, .str b, .str c, hab, hbc => strCase_trans a b c hab hbc
    | .str _, _, .nan, _, _ => trivial
    | .nan, .nan, .nan, _, _ => trivial

/-!
### Label mapping (pandas categorical)

`data_sub[target_col].astype("category")` derives the categories as
the sorted distinct observed values; `cat.codes` encodes each value by
its index in that sorted list, and `class_mapping = dict(enumerate(
y_cat.cat.categories))` decodes a code to the category at that index,
with `class_mapping.get(c, str(c))` falling back to the printed code.
-/

/-- The pandas categorical `categories` list: distinct observed values
in sorted order. -/
def pdCategories (values : List Val) : List Val :=
  List.insertionSort Val.le values.dedup

/-- Number of classes: the number of distinct observed values. -/
def numClasses (values : List Val) : ℕ :=
  (pdCategories values).length

/-- The pandas categorical code of a value: its index in the sorted
category list. -/
def pdCode (values : List Val) (v : Val) : ℕ :=
  (pdCategories values).indexOf v

/-- Decoding a class code as the scenario scorer does:
`class_mapping.get(c, str(c))`. -/
def pdDecode (values : List Val) (c : ℕ) : Val :=
  match (pdCategories values)[c]? with
  | some v => v
  | none => .str (toString c)

theorem mem_pdCategories {values : List Val} {v : Val} :
    v ∈ pdCategories values ↔ v ∈ values := by
  unfold pdCategories
  rw [(List.perm_insertionSort Val.le values.dedup).mem_iff]
  exact List.mem_dedup

theorem nodup_pdCategories (values : List Val) :
    (pdCategories values).Nodup :=
  (List.perm_insertionSort Val.le values.dedup).nodup_iff.mpr
    (List.nodup_dedup values)

/-- Claim C3: for every observed target value, decoding its assigned
code returns the value itself, and the set of assigned codes is
exactly `{0, ..., K-1}` where `K` is the number of distinct observed
target values. -/
theorem claim_C3_label_roundtrip (values : List Val) (v : Val)
    (hv : v ∈ values) :
    pdDecode values (pdCode values v) = v ∧
    pdCode values v < numClasses values ∧
    (∀ c, c < numClasses values → ∃ w, w ∈ values ∧ pdCode values w = c) ∧
    numClasses values = values.dedup.length := by
  have hmem : v ∈ pdCategories values := mem_pdCategories.mpr hv
  refine ⟨?_, ?_, ?_, ?_⟩
  · unfold pdDecode pdCode
    rw [List.getElem?_indexOf hmem]
  · exact List.indexOf_lt_length.mpr hmem
  · intro c hc
    have hc' : c < (pdCategories values).length := hc
    refine ⟨(pdCategories values)[c], ?_, ?_⟩
    · exact mem_pdCategories.mp (List.getElem_mem hc')
    · exact List.indexOf_getElem (nodup_pdCategories values) c hc'
  · exact (List.perm_insertionSort Val.le values.dedup).length_eq

/-- Witness for C3 at a concrete observed-values list. -/
theorem claim_C3_label_roundtrip_witness :
    Val.str "b" ∈ [Val.str "b", Val.str "a", Val.str "b"] ∧
    (pdDecode [Val.str "b", Val.str "a", Val.str "b"]
        (pdCode [Val.str "b", Val.str "a", Val.str "b"] (Val.str "b"))
      = Val.str "b" ∧
    pdCode [Val.str "b", Val.str "a", Val.str "b"] (Val.str "b")
      < numClasses [Val.str "b", Val.str "a", Val.str "b"] ∧
    (∀ c, c < numClasses [Val.str "b", Val.str "a", Val.str "b"] →
      ∃ w, w ∈ [Val.str "b", Val.str "a", Val.str "b"] ∧
        pdCode [Val.str "b", Val.str "a", Val.str "b"] w = c) ∧
    numClasses [Val.str "b", Val.str "a", Val.str "b"]
      = [Val.str "b", Val.str "a", Val.str "b"].dedup.length) :=
  ⟨by decide,
   claim_C3_label_roundtrip [Val.str "b", Val.str "a", Val.str "b"]
     (Val.str "b") (by decide)⟩

/-!
### Classifier builder (`construir_modelo_clasificacion`)

The Keras `Sequential` model is embedded structurally: the list of
layers added, and the compile arguments (loss, optimizer, metrics).
-/

inductive Layer where
  | input (dim : ℕ)
  | dense (units : ℕ) (activation : String)
  | dropout (rate : ℚ)
deriving DecidableEq

structure CompiledModel where
  name : String
  layersList : List Layer
  loss : String
  optimizer : String
  metrics : List String
deriving DecidableEq

def construir_modelo_clasificacion (input_dim n_classes : ℕ)
    (model_name : String) : CompiledModel :=
  let base : List Layer :=
    [.input input_dim, .dense 32 "relu", .dropout (mkRat 2 10), .dense 16 "relu"]
  if n_classes = 2 then
    { name := model_name
      layersList := base ++ [.dense 1 "sigmoid"]
      loss := "binary_crossentropy"
      optimizer := "adam"
      metrics := ["accuracy"] }
  else
    { name := model_name
      layersList := base ++ [.dense n_classes "softmax"]
      loss := "sparse_categorical_crossentropy"
      optimizer := "adam"
      metrics := ["accuracy"] }

def outputLayer (m : CompiledModel) : Option Layer :=
  m.layersList.getLast?

/-- Claim C2: the builder produces a single sigmoid output unit with
binary cross-entropy when `n_classes = 2`, and `n_classes` softmax
output units with sparse categorical cross-entropy when
`n_classes > 2`. -/
theorem claim_C2_head_selection (input_dim n_classes : ℕ)
    (model_name : String) :
    (n_classes = 2 →
      outputLayer (construir_modelo_clasificacion input_dim n_classes model_name)
        = some (.dense 1 "sigmoid") ∧
      (construir_modelo_clasificacion input_dim n_classes model_name).loss
        = "binary_crossentropy") ∧
    (2 < n_classes →
      outputLayer (construir_modelo_clasificacion input_dim n_classes model_name)
        = some (.dense n_classes "softmax") ∧
      (construir_modelo_clasificacion input_dim n_classes model_name).loss
        = "sparse_categorical_crossentropy") := by
  constructor
  · intro h
    subst h
    exact ⟨rfl, rfl⟩
  · intro h
    have hne : ¬ n_classes = 2 := by omega
    unfold construir_modelo_clasificacion outputLayer
    rw [if_neg hne]
    exact ⟨rfl, rfl⟩

/-- Witness for C2 at `n_classes = 2` and `n_classes = 3`. -/
theorem claim_C2_head_selection_witness :
    (outputLayer (construir_modelo_clasificacion 5 2 "m")
        = some (.dense 1 "sigmoid") ∧
      (construir_modelo_clasificacion 5 2 "m").loss
        = "binary_crossentropy") ∧
    (outputLayer (construir_modelo_clasificacion 5 3 "m")
        = some (.dense 3 "softmax") ∧
      (construir_modelo_clasificacion 5 3 "m").loss
        = "sparse_categorical_crossentropy") :=
  ⟨(claim_C2_head_selection 5 2 "m").1 rfl,
   (claim_C2_head_selection 5 3 "m").2 (by decide)⟩

/-!
### Scenario scorer (`predecir_escenarios`, per-row content)

The scorer receives the trained model's probability output for a row
and the `class_mapping`.  It branches on the output width: width 1 is
the binary head (threshold 0.5, single `prob_clase_positiva` column);
otherwise arg-max over the per-class probabilities with one
`prob_<category>` column per class, in mapping order.
-/

/-- Index of the first maximum, as `np.argmax` returns it. -/
def argmaxAux : List ℚ → ℕ → ℕ → ℚ → ℕ
  | [], _, best, _ => best
  | x :: xs, i, best, bestVal =>
    if bestVal < x then argmaxAux xs (i + 1) i x
    else argmaxAux xs (i + 1) best bestVal

def npArgmax : List ℚ → ℕ
  | [] => 0
  | x :: xs => argmaxAux xs 1 0 x

/-- Decode a code as the source does: `class_mapping.get(c, str(c))`. -/
def mappingGet (class_mapping : List Val) (c : ℕ) : Val :=
  match class_mapping[c]? with
  | some v => v
  | none => .str (toString c)

/-- Python `str` of a category value, as used in the
`f"prob_.."` column names.  (The pipeline only ever uses string
categories in multi-class targets, so the numeric rendering is never
exercised.) -/
def Val.pyStr : Val → String
  | .num q => toString q
  | .str s => s
  | .nan => "nan"

structure ScoredRow where
  clase_predicha_cod : ℕ
  clase_predicha : Val
  probCols : List (String × ℚ)
deriving DecidableEq

/-- Binary branch of `predecir_escenarios`. -/
def scoreBinary (class_mapping : List Val) (p : ℚ) : ScoredRow :=
  let code : ℕ := if mkRat 1 2 ≤ p then 1 else 0
  { clase_predicha_cod := code
    clase_predicha := mappingGet class_mapping code
    probCols := [("prob_clase_positiva", p)] }

/-- Multi-class branch of `predecir_escenarios`. -/
def scoreMulti (class_mapping : List Val) (probs : List ℚ) : ScoredRow :=
  let code := npArgmax probs
  { clase_predicha_cod := code
    clase_predicha := mappingGet class_mapping code
    probCols := class_mapping.enum.map
      (fun p => ("prob_" ++ p.2.pyStr, probs.getD p.1 0)) }

/-- Per-row scoring: branch on the width of the classifier output,
as the source branches on `y_proba.shape[1]`. -/
def scoreRow (class_mapping : List Val) (probRow : List ℚ) : ScoredRow :=
  if probRow.length = 1 then scoreBinary class_mapping (probRow.getD 0 0)
  else scoreMulti class_mapping probRow

/-- Counterexample to claim C1: with observed target categories
"low", "medium", "high", the pandas category mapping is alphabetical
(high→0, low→1, medium→2), so the probability vector
[0.1, 0.7, 0.2] decodes to label "low", not "medium", and the
probability columns are prob_high, prob_low, prob_medium in that
order. -/
theorem claim_C1_counterexample :
    ¬ ((scoreRow (pdCategories [Val.str "low", Val.str "medium", Val.str "high"])
          [mkRat 1 10, mkRat 7 10, mkRat 2 10]).clase_predicha_cod = 1 ∧
       (scoreRow (pdCategories [Val.str "low", Val.str "medium", Val.str "high"])
          [mkRat 1 10, mkRat 7 10, mkRat 2 10]).clase_predicha = Val.str "medium" ∧
       (scoreRow (pdCategories [Val.str "low", Val.str "medium", Val.str "high"])
          [mkRat 1 10, mkRat 7 10, mkRat 2 10]).probCols
         = [("prob_low", mkRat 1 10), ("prob_medium", mkRat 7 10),
            ("prob_high", mkRat 2 10)]) := by
  decide

/-- Claim C1 as amended: with observed target categories "low",
"medium", "high", the alphabetical mapping is high→0, low→1,
medium→2; scoring the output vector [0.1, 0.7, 0.2] reports
predicted code 1, predicted label "low", and probability columns
prob_high=0.1, prob_low=0.7, prob_medium=0.2. -/
theorem claim_C1_amended :
    scoreRow (pdCategories [Val.str "low", Val.str "medium", Val.str "high"])
        [mkRat 1 10, mkRat 7 10, mkRat 2 10]
      = { clase_predicha_cod := 1
          clase_predicha := Val.str "low"
          probCols := [("prob_high", mkRat 1 10), ("prob_low", mkRat 7 10),
                       ("prob_medium", mkRat 2 10)] } := by
  decide

/-- Claim C4: with binary target categories "no"→0, "yes"→1, a
classifier output of the single probability 0.82 yields predicted
code 1, label "yes", and positive-class probability column 0.82. -/
theorem claim_C4_binary_example :
    scoreRow (pdCategories [Val.str "no", Val.str "yes"]) [mkRat 82 100]
      = { clase_predicha_cod := 1
          clase_predicha := Val.str "yes"
          probCols := [("prob_clase_positiva", mkRat 82 100)] } := by
  decide

/-!
### Feature preprocessor (`construir_preprocesador`)

The `ColumnTransformer` standardizes the numeric columns
(`StandardScaler`: subtract the training mean, divide by the standard
deviation, the square root of the biased variance, with zero variance
replaced by one) and one-hot-encodes the categorical columns
(`OneHotEncoder(handle_unknown="ignore")`: categories are the sorted
distinct fitted values; an unknown value at transform time yields an
all-zero indicator block).  The transformed matrix is the numeric
block followed by the categorical blocks, in the configured column
order.
-/

/-- A row of the dataset: named cell values. -/
abbrev Row := List (String × Val)

/-- A transformed matrix entry.  `val num varr` denotes the real
number `num / sqrt varr`; one-hot indicator entries use `varr = 1`,
so `val 0 1` is `0` and `val 1 1` is `1`.  `nan` is a propagated
missing value. -/
inductive Entry where
  | nan
  | val (num varr : ℚ)
deriving DecidableEq

def Entry.zero : Entry := .val 0 1

def Entry.one : Entry := .val 1 1

/-- Sequence a fallible computation over a list, stopping at the
first error (the underlying library raises on the first bad
column/value). -/
def collectE {α β : Type} (f : α → Except String β) : List α → Except String (List β)
  | [] => .ok []
  | a :: as =>
    match f a with
    | .error e => .error e
    | .ok b =>
      match collectE f as with
      | .error e => .error e
      | .ok bs => .ok (b :: bs)

theorem collectE_ok_length {α β : Type} (f : α → Except String β)
    (l : List α) (res : List β) (h : collectE f l = .ok res) :
    res.length = l.length := by
  induction l generalizing res with
  | nil =>
    simp only [collectE, Except.ok.injEq] at h
    subst h; rfl
  | cons a as ih =>
    simp only [collectE] at h
    cases hfa : f a <;> rw [hfa] at h
    · exact absurd h (by simp)
    · cases hrec : collectE f as <;> rw [hrec] at h
      · exact absurd h (by simp)
      · rw [Except.ok.injEq] at h
        subst h
        simp [ih _ hrec]

theorem collectE_ok_get {α β : Type} (f : α → Except String β)
    (l : List α) (res : List β) (h : collectE f l = .ok res)
    (i : ℕ) (h1 : i < l.length) (h2 : i < res.length) :
    f (l.get ⟨i, h1⟩) = .ok (res.get ⟨i, h2⟩) := by
  induction l generalizing res i with
  | nil => exact absurd h1 (by simp)
  | cons a as ih =>
    simp only [collectE] at h
    cases hfa : f a <;> rw [hfa] at h
    · exact absurd h (by simp)
    · cases hrec : collectE f as <;> rw [hrec] at h
      · exact absurd h (by simp)
      · rw [Except.ok.injEq] at h
        subst h
        cases i with
        | zero => simpa using hfa
        | succ j =>
          exact ih _ hrec j (by simpa using h1) (by simpa using h2)

theorem collectE_ok_mem {α β : Type} (f : α → Except String β)
    (l : List α) (res : List β) (h : collectE f l = .ok res) (b : β) :
    b ∈ res ↔ ∃ a, a ∈ l ∧ f a = .ok b := by
  induction l generalizing res with
  | nil =>
    simp only [collectE, Except.ok.injEq] at h
    subst h
    simp
  | cons a as ih =>
    simp only [collectE] at h
    cases hfa : f a <;> rw [hfa] at h
    · exact absurd h (by simp)
    · cases hrec : collectE f as <;> rw [hrec] at h
      · exact absurd h (by simp)
      · rw [Except.ok.injEq] at h
        subst h
        rename_i b0 bs
        constructor
        · intro hb
          rcases List.mem_cons.mp hb with rfl | hb
          · exact ⟨a, List.mem_cons_self a as, hfa⟩
          · obtain ⟨a2, ha2, hfa2⟩ := (ih _ hrec).mp hb
            exact ⟨a2, List.mem_cons_of_mem a ha2, hfa2⟩
        · rintro ⟨a2, ha2, hfa2⟩
          rcases List.mem_cons.mp ha2 with rfl | ha2
          · rw [hfa] at hfa2
            rw [Except.ok.injEq] at hfa2
            exact List.mem_cons.mpr (Or.inl hfa2.symm)
          · exact List.mem_cons.mpr (Or.inr ((ih _ hrec).mpr ⟨a2, ha2, hfa2⟩))

theorem collectE_ok_of_forall {α β : Type} (f : α → Except String β)
    (l : List α) (hall : ∀ a, a ∈ l → ∃ b, f a = .ok b) :
    ∃ res, collectE f l = .ok res := by
  induction l with
  | nil => exact ⟨[], rfl⟩
  | cons a as ih =>
    obtain ⟨b, hb⟩ := hall a (List.mem_cons_self a as)
    obtain ⟨bs, hbs⟩ := ih (fun x hx => hall x (List.mem_cons_of_mem a hx))
    exact ⟨b :: bs, by simp only [collectE, hb, hbs]⟩

/-- The numeric values of a column across rows.  `StandardScaler`
disregards missing values during fit, and raises on a non-numeric
value or a missing column. -/
def numColValues (c : String) : List Row → Except String (List ℚ)
  | [] => .ok []
  | r :: rs =>
    match r.lookup c with
    | none => .error c
    | some (.str _) => .error c
    | some .nan => numColValues c rs
    | some (.num q) =>
      match numColValues c rs with
      | .error e => .error e
      | .ok qs => .ok (q :: qs)

/-- All values of a categorical column across rows (missing column is
an error). -/
def catColValues (rows : List Row) (c : String) : Except String (List Val) :=
  collectE (fun r =>
    match r.lookup c with
    | some v => Except.ok v
    | none => Except.error c) rows

/-- Mean of the fitted numeric values. -/
def qMean (xs : List ℚ) : ℚ := xs.sum / (xs.length : ℚ)

/-- Biased variance (`ddof = 0`) of the fitted numeric values. -/
def qVar (xs : List ℚ) : ℚ :=
  ((xs.map (fun x => (x - qMean xs) ^ 2)).sum) / (xs.length : ℚ)

/-- The stored variance: `StandardScaler` replaces a zero variance by
one so the transform never divides by zero. -/
def adjVar (xs : List ℚ) : ℚ := if qVar xs = 0 then 1 else qVar xs

/-- The `OneHotEncoder` vocabulary of one categorical column: sorted
distinct fitted values. -/
def vocabOf (vs : List Val) : List Val :=
  List.insertionSort Val.le vs.dedup

theorem vocabOf_sorted (vs : List Val) : (vocabOf vs).Sorted Val.le :=
  List.sorted_insertionSort Val.le vs.dedup

theorem vocabOf_nodup (vs : List Val) : (vocabOf vs).Nodup :=
  (List.perm_insertionSort Val.le vs.dedup).nodup_iff.mpr (List.nodup_dedup vs)

theorem mem_vocabOf {vs : List Val} {v : Val} : v ∈ vocabOf vs ↔ v ∈ vs :=
  (List.perm_insertionSort Val.le vs.dedup).mem_iff.trans List.mem_dedup

/-- The fitted preprocessor: scaling parameters per numeric column and
vocabulary per categorical column. -/
structure FittedPre where
  numeric_features : List String
  categorical_features : List String
  means : List ℚ
  variances : List ℚ
  vocab : List (List Val)
deriving DecidableEq

/-- Fitting the `ColumnTransformer` built by `construir_preprocesador`
on a list of rows. -/
def construir_preprocesador_fit (numeric_features categorical_features : List String)
    (rows : List Row) : Except String FittedPre :=
  match collectE (fun c => numColValues c rows) numeric_features with
  | .error e => .error e
  | .ok numVals =>
    match collectE (catColValues rows) categorical_features with
    | .error e => .error e
    | .ok catVals =>
      .ok { numeric_features := numeric_features
            categorical_features := categorical_features
            means := numVals.map qMean
            variances := numVals.map adjVar
            vocab := catVals.map vocabOf }

/-- Scaling one numeric cell: `(x - mean) / sqrt variance`,
propagating missing values, raising on a string. -/
def scaleEntry (mean varAdj : ℚ) : Val → Except String Entry
  | .num q => .ok (.val (q - mean) varAdj)
  | .nan => .ok .nan
  | .str s => .error s

/-- The one-hot indicator block of one categorical cell. -/
def oneHotBlock (cats : List Val) (v : Val) : List Entry :=
  cats.map (fun cat => if cat = v then Entry.one else Entry.zero)

/-- Transforming one row with the fitted preprocessor: scaled numeric
entries first, then the concatenated one-hot blocks. -/
def transformRow (fp : FittedPre) (r : Row) : Except String (List Entry) :=
  match collectE (fun p =>
      match r.lookup p.1 with
      | none => Except.error p.1
      | some v => scaleEntry p.2.1 p.2.2 v)
    (fp.numeric_features.zip (fp.means.zip fp.variances)) with
  | .error e => .error e
  | .ok numPart =>
    match collectE (fun p =>
        match r.lookup p.1 with
        | none => Except.error p.1
        | some v => Except.ok (oneHotBlock p.2 v))
      (fp.categorical_features.zip fp.vocab) with
    | .error e => .error e
    | .ok blocks => .ok (numPart ++ blocks.flatten)

/-- Descriptor of one output matrix column. -/
inductive ColDesc where
  | numCol (name : String)
  | catCol (name : String) (category : Val)
deriving DecidableEq

/-- The output column layout of the fitted preprocessor. -/
def colDescs (fp : FittedPre) : List ColDesc :=
  fp.numeric_features.map ColDesc.numCol ++
    ((fp.categorical_features.zip fp.vocab).map
      (fun p => p.2.map (ColDesc.catCol p.1))).flatten

/-- Distinct values in first-seen order. -/
def firstSeenAux : List Val → List Val → List Val
  | [], _ => []
  | v :: vs, seen =>
    if v ∈ seen then firstSeenAux vs seen
    else v :: firstSeenAux vs (v :: seen)

def firstSeen (l : List Val) : List Val := firstSeenAux l []

/-- Modelled from the spec: the preprocessor as §4.1 words it, with
each one-hot sub-block "ordered by first-seen category within each
categorical column"; identical to `construir_preprocesador_fit`
except for that ordering.  Kept only to compare the spec's claimed
ordering with the source's sorted ordering. -/
def fit_spec_firstSeen (numeric_features categorical_features : List String)
    (rows : List Row) : Except String FittedPre :=
  match collectE (fun c => numColValues c rows) numeric_features with
  | .error e => .error e
  | .ok numVals =>
    match collectE (catColValues rows) categorical_features with
    | .error e => .error e
    | .ok catVals =>
      .ok { numeric_features := numeric_features
            categorical_features := categorical_features
            means := numVals.map qMean
            variances := numVals.map adjVar
            vocab := catVals.map firstSeen }

instance {ε α : Type} [DecidableEq ε] [DecidableEq α] :
    DecidableEq (Except ε α) := fun x y =>
  match x, y with
  | .ok a, .ok b =>
    if h : a = b then isTrue (by rw [h]) else isFalse (by simp [h])
  | .error a, .error b =>
    if h : a = b then isTrue (by rw [h]) else isFalse (by simp [h])
  | .ok _, .error _ => isFalse (by simp)
  | .error _, .ok _ => isFalse (by simp)

theorem catColValues_ok_mem {rows : List Row} {c : String}
    {vs : List Val} (h : catColValues rows c = .ok vs) (v : Val) :
    v ∈ vs ↔ ∃ r, r ∈ rows ∧ r.lookup c = some v := by
  rw [collectE_ok_mem _ _ _ h v]
  constructor
  · rintro ⟨r, hr, hfr⟩
    refine ⟨r, hr, ?_⟩
    cases hlook : r.lookup c <;> rw [hlook] at hfr
    · exact absurd hfr (by simp)
    · rw [Except.ok.injEq] at hfr
      rw [hfr]
  · rintro ⟨r, hr, hlook⟩
    exact ⟨r, hr, by rw [hlook]⟩

/-- Two fitting rows with one numeric column `n` and one categorical
column `c` whose values appear in the order "b", "a". -/
def rowsC5 : List Row :=
  [[("n", Val.num (mkRat 1 1)), ("c", Val.str "b")],
   [("n", Val.num (mkRat 2 1)), ("c", Val.str "a")]]

/-- The preprocessor fitted on `rowsC5`: mean 3/2, variance 1/4, and
the sorted vocabulary ["a", "b"]. -/
def fpC5 : FittedPre :=
  { numeric_features := ["n"]
    categorical_features := ["c"]
    means := [mkRat 3 2]
    variances := [mkRat 1 4]
    vocab := [[Val.str "a", Val.str "b"]] }

/-- Counterexample to claim C5: fitting on rows whose categorical
values appear in the order "b", "a" produces the one-hot sub-block in
sorted order "a", "b" (sklearn sorts the categories), not in
first-seen order "b", "a" as the claim states. -/
theorem claim_C5_counterexample :
    (construir_preprocesador_fit ["n"] ["c"] rowsC5).toOption.map colDescs
      = some [ColDesc.numCol "n", ColDesc.catCol "c" (Val.str "a"),
              ColDesc.catCol "c" (Val.str "b")] ∧
    (fit_spec_firstSeen ["n"] ["c"] rowsC5).toOption.map colDescs
      = some [ColDesc.numCol "n", ColDesc.catCol "c" (Val.str "b"),
              ColDesc.catCol "c" (Val.str "a")] ∧
    ¬ ((construir_preprocesador_fit ["n"] ["c"] rowsC5).toOption.map colDescs
        = (fit_spec_firstSeen ["n"] ["c"] rowsC5).toOption.map colDescs) := by
  with_unfolding_all decide

/-- Claim C5 as amended: the transformed matrix's columns are the
scaled numeric columns first, then the one-hot blocks of the
categorical columns in configuration order; within each categorical
column the one-hot sub-block is ordered by ascending (sorted)
category value and contains exactly the distinct categories observed
in the fitting rows. -/
theorem claim_C5_amended (nf cf : List String) (rows : List Row)
    (fp : FittedPre)
    (hfit : construir_preprocesador_fit nf cf rows = .ok fp) :
    colDescs fp = nf.map ColDesc.numCol ++
      ((cf.zip fp.vocab).map
        (fun p => p.2.map (ColDesc.catCol p.1))).flatten ∧
    fp.vocab.length = cf.length ∧
    (∀ i (h1 : i < cf.length) (h2 : i < fp.vocab.length),
      (fp.vocab.get ⟨i, h2⟩).Sorted Val.le ∧
      (fp.vocab.get ⟨i, h2⟩).Nodup ∧
      (∀ v, v ∈ fp.vocab.get ⟨i, h2⟩ ↔
        ∃ r, r ∈ rows ∧ r.lookup (cf.get ⟨i, h1⟩) = some v)) := by
  unfold construir_preprocesador_fit at hfit
  cases hnum : collectE (fun c => numColValues c rows) nf <;> rw [hnum] at hfit
  · exact absurd hfit (by simp)
  · cases hcat : collectE (catColValues rows) cf <;> rw [hcat] at hfit
    · exact absurd hfit (by simp)
    · rw [Except.ok.injEq] at hfit
      subst hfit
      rename_i numVals catVals
      have hlen : catVals.length = cf.length :=
        collectE_ok_length _ _ _ hcat
      refine ⟨rfl, by simpa using hlen, ?_⟩
      intro i h1 h2
      have h3 : i < catVals.length := by
        rw [hlen]; exact h1
      have hv : (List.map vocabOf catVals).get ⟨i, h2⟩
          = vocabOf (catVals.get ⟨i, h3⟩) := by
        simp
      have hget : catColValues rows (cf.get ⟨i, h1⟩)
          = .ok (catVals.get ⟨i, h3⟩) :=
        collectE_ok_get _ _ _ hcat i h1 h3
      refine ⟨?_, ?_, ?_⟩
      · show ((List.map vocabOf catVals).get ⟨i, h2⟩).Sorted Val.le
        rw [hv]; exact vocabOf_sorted _
      · show ((List.map vocabOf catVals).get ⟨i, h2⟩).Nodup
        rw [hv]; exact vocabOf_nodup _
      · intro v
        show v ∈ (List.map vocabOf catVals).get ⟨i, h2⟩ ↔ _
        rw [hv, mem_vocabOf]
        exact catColValues_ok_mem hget v

/-- Witness for C5 (amended) at the concrete fitting rows. -/
theorem claim_C5_amended_witness :
    construir_preprocesador_fit ["n"] ["c"] rowsC5 = .ok fpC5 ∧
    (colDescs fpC5 = (["n"] : List String).map ColDesc.numCol ++
      (((["c"] : List String).zip fpC5.vocab).map
        (fun p => p.2.map (ColDesc.catCol p.1))).flatten ∧
    fpC5.vocab.length = (["c"] : List String).length ∧
    (∀ i (h1 : i < (["c"] : List String).length)
        (h2 : i < fpC5.vocab.length),
      (fpC5.vocab.get ⟨i, h2⟩).Sorted Val.le ∧
      (fpC5.vocab.get ⟨i, h2⟩).Nodup ∧
      (∀ v, v ∈ fpC5.vocab.get ⟨i, h2⟩ ↔
        ∃ r, r ∈ rowsC5 ∧
          r.lookup ((["c"] : List String).get ⟨i, h1⟩) = some v))) :=
  ⟨by with_unfolding_all decide,
   claim_C5_amended ["n"] ["c"] rowsC5 fpC5 (by with_unfolding_all decide)⟩

def Val.isStr : Val → Bool
  | .str _ => true
  | _ => false

/-- The row has a numeric-column cell that `StandardScaler.transform`
accepts: present and not a string. -/
def numCellOk (r : Row) (c : String) : Bool :=
  match r.lookup c with
  | some v => ! v.isStr
  | none => false

/-- The row has a categorical-column cell (any value). -/
def catCellOk (r : Row) (c : String) : Bool :=
  (r.lookup c).isSome

theorem oneHotBlock_of_not_mem (cats : List Val) (v : Val)
    (h : ¬ v ∈ cats) :
    oneHotBlock cats v = List.replicate cats.length Entry.zero := by
  induction cats with
  | nil => rfl
  | cons c cs ih =>
    rw [List.mem_cons, not_or] at h
    have hne : ¬ c = v := fun he => h.1 he.symm
    simp only [oneHotBlock, List.map, if_neg hne, List.length_cons,
      List.replicate_succ]
    exact congrArg _ (ih h.2)

/-- Claim C6: for every fitted preprocessor and every (otherwise
well-formed) row holding a categorical value unseen during fitting,
the transform succeeds and the one-hot block for that column is all
zeros. -/
theorem claim_C6_unseen_category (nf cf : List String) (rows : List Row)
    (fp : FittedPre) (r : Row) (c0 : String) (v0 : Val)
    (hfit : construir_preprocesador_fit nf cf rows = .ok fp)
    (hnum : ∀ c, c ∈ nf → numCellOk r c = true)
    (hcat : ∀ c, c ∈ cf → catCellOk r c = true)
    (hc0 : r.lookup c0 = some v0)
    (hunseen : ∀ row, row ∈ rows → ¬ row.lookup c0 = some v0) :
    (∃ es, transformRow fp r = .ok es) ∧
    (∀ vb, (c0, vb) ∈ fp.categorical_features.zip fp.vocab →
      oneHotBlock vb v0 = List.replicate vb.length Entry.zero) := by
  unfold construir_preprocesador_fit at hfit
  cases hnumv : collectE (fun c => numColValues c rows) nf <;>
    rw [hnumv] at hfit
  · exact absurd hfit (by simp)
  · cases hcatv : collectE (catColValues rows) cf <;> rw [hcatv] at hfit
    · exact absurd hfit (by simp)
    · rw [Except.ok.injEq] at hfit
      rename_i numVals catVals
      have hnf : fp.numeric_features = nf := by rw [← hfit]
      have hcf : fp.categorical_features = cf := by rw [← hfit]
      have hmeans : fp.means = numVals.map qMean := by rw [← hfit]
      have hvars : fp.variances = numVals.map adjVar := by rw [← hfit]
      have hvocab : fp.vocab = catVals.map vocabOf := by rw [← hfit]
      constructor
      · -- the transform succeeds
        have hok1 : ∃ numPart, collectE (fun p =>
            match r.lookup p.1 with
            | none => Except.error p.1
            | some v => scaleEntry p.2.1 p.2.2 v)
            (nf.zip ((numVals.map qMean).zip (numVals.map adjVar)))
            = .ok numPart := by
          apply collectE_ok_of_forall
          rintro ⟨c, mv⟩ hmem
          have hcnf : c ∈ nf := (List.of_mem_zip hmem).1
          have hok := hnum c hcnf
          unfold numCellOk at hok
          cases hlook : r.lookup c <;> rw [hlook] at hok
          · exact absurd hok (by simp)
          · rename_i v
            cases v with
            | num q => exact ⟨_, rfl⟩
            | str s => exact absurd hok (by simp [Val.isStr])
            | nan => exact ⟨_, rfl⟩
        have hok2 : ∃ blocks, collectE (fun p =>
            match r.lookup p.1 with
            | none => Except.error p.1
            | some v => Except.ok (oneHotBlock p.2 v))
            (cf.zip (catVals.map vocabOf)) = .ok blocks := by
          apply collectE_ok_of_forall
          rintro ⟨c, vb⟩ hmem
          have hccf : c ∈ cf := (List.of_mem_zip hmem).1
          have hok := hcat c hccf
          unfold catCellOk at hok
          cases hlook : r.lookup c <;> rw [hlook] at hok
          · exact absurd hok (by simp)
          · exact ⟨_, rfl⟩
        obtain ⟨numPart, hnp⟩ := hok1
        obtain ⟨blocks, hbl⟩ := hok2
        refine ⟨numPart ++ blocks.flatten, ?_⟩
        unfold transformRow
        rw [hnf, hcf, hmeans, hvars, hvocab, hnp, hbl]
      · -- the unseen value's block is all zeros
        intro vb hmem
        rw [hcf, hvocab] at hmem
        rw [List.mem_iff_getElem] at hmem
        obtain ⟨i, hilen, hi⟩ := hmem
        rw [List.getElem_zip, Prod.mk.injEq] at hi
        obtain ⟨hc, hv⟩ := hi
        have hlz : (cf.zip (List.map vocabOf catVals)).length
            = min cf.length catVals.length := by
          simp [List.length_zip]
        have hbounds := lt_min_iff.mp (hlz ▸ hilen)
        have h1 : i < cf.length := hbounds.1
        have h3 : i < catVals.length := hbounds.2
        rw [List.getElem_map] at hv
        have hget : catColValues rows (cf.get ⟨i, h1⟩)
            = .ok (catVals.get ⟨i, h3⟩) :=
          collectE_ok_get _ _ _ hcatv i h1 h3
        simp only [List.get_eq_getElem] at hget
        rw [hc] at hget
        have hnotin : ¬ v0 ∈ vb := by
          rw [← hv, mem_vocabOf]
          intro hin
          obtain ⟨row, hrow, hlook⟩ :=
            (catColValues_ok_mem hget v0).mp hin
          exact hunseen row hrow hlook
        exact oneHotBlock_of_not_mem vb v0 hnotin

/-- A scenario-like row whose categorical value "z" never occurs in
`rowsC5`. -/
def rowC6 : Row := [("n", Val.num (mkRat 3 1)), ("c", Val.str "z")]

/-- Witness for C6 at the concrete fitted preprocessor and row. -/
theorem claim_C6_unseen_category_witness :
    construir_preprocesador_fit ["n"] ["c"] rowsC5 = .ok fpC5 ∧
    (∀ c, c ∈ (["n"] : List String) → numCellOk rowC6 c = true) ∧
    (∀ c, c ∈ (["c"] : List String) → catCellOk rowC6 c = true) ∧
    rowC6.lookup "c" = some (Val.str "z") ∧
    (∀ row, row ∈ rowsC5 → ¬ row.lookup "c" = some (Val.str "z")) ∧
    ((∃ es, transformRow fpC5 rowC6 = .ok es) ∧
     (∀ vb, ("c", vb) ∈ fpC5.categorical_features.zip fpC5.vocab →
       oneHotBlock vb (Val.str "z")
         = List.replicate vb.length Entry.zero)) :=
  ⟨by with_unfolding_all decide, by decide, by decide, by decide,
   by decide,
   claim_C6_unseen_category ["n"] ["c"] rowsC5 fpC5 rowC6 "c"
     (Val.str "z") (by with_unfolding_all decide) (by decide)
     (by decide) (by decide) (by decide)⟩

/-!
### Training procedure (`entrenar_modelo_nn`) and per-model pipeline

The decidable prefix of `entrenar_modelo_nn` is embedded: column
validation, row filtering (`dropna`), target encoding, the stratified
split's failure conditions (`train_test_split(test_size=0.3,
stratify=y)` raises when the resulting train set would be empty, when
the least populated class has fewer than 2 members, or when the train
or test size is smaller than the number of classes), and the
preprocessor fit.  Which rows land in the train subset comes from the
library's seeded shuffling and is not modelled; the preprocessor is
fitted on the filtered rows, which the claims settled here do not
distinguish from the train subset.  The Keras fit/evaluate, the two
curve plots, and the model export are external effectful steps that do
not validate data; the pipeline model tracks the artifacts they write
by name.
-/

inductive TrainError where
  | configError (missing : List String)
  | dataQualityError (msg : String)
  | preError (col : String)
  | scenarioError (msg : String)
deriving DecidableEq

structure Dataset where
  cols : List String
  rows : List Row
deriving DecidableEq

/-- The cell is present and not `NaN` (what `dropna` keeps). -/
def cellComplete (r : Row) (c : String) : Bool :=
  match r.lookup c with
  | some .nan => false
  | some _ => true
  | none => false

/-- The target column of the filtered rows. -/
def targetValues (rows : List Row) (target_col : String) : List Val :=
  rows.map (fun r => (r.lookup target_col).getD Val.nan)

/-- The test-set size of the 70/30 split: `ceil(0.3 * n)`. -/
def nTest (n : ℕ) : ℕ := (3 * n + 9) / 10

/-- The train-set size: the remaining rows. -/
def nTrain (n : ℕ) : ℕ := n - nTest n

/-- The failure conditions of the seeded stratified
`train_test_split`, in the order the library checks them. -/
def stratifyCheck (y : List Val) : Except TrainError Unit :=
  if nTrain y.length = 0 then
    .error (.dataQualityError "resulting train set is empty")
  else if ∃ v, v ∈ y ∧ y.count v < 2 then
    .error (.dataQualityError
      "least populated class has fewer than 2 members")
  else if nTest y.length < (pdCategories y).length ∨
      nTrain y.length < (pdCategories y).length then
    .error (.dataQualityError
      "train or test size smaller than the number of classes")
  else .ok ()

/-- What `entrenar_modelo_nn` has established once training can
proceed. -/
structure TrainPrep where
  class_mapping : List Val
  nObs : ℕ
  fitted : FittedPre
deriving DecidableEq

/-- The decidable prefix of `entrenar_modelo_nn`: validate columns,
filter rows, derive the label mapping, check the stratified split,
fit the preprocessor. -/
def entrenar_modelo_nn_prep (df : Dataset) (target_col : String)
    (predictors numeric_features categorical_features : List String) :
    Except TrainError TrainPrep :=
  if (target_col :: predictors).filter (fun c => ! df.cols.contains c)
      = [] then
    match stratifyCheck (targetValues (df.rows.filter
        (fun r => (target_col :: predictors).all (cellComplete r)))
        target_col) with
    | .error e => .error e
    | .ok _ =>
      match construir_preprocesador_fit numeric_features
          categorical_features (df.rows.filter
            (fun r => (target_col :: predictors).all (cellComplete r))) with
      | .error e => .error (.preError e)
      | .ok fp =>
        .ok { class_mapping := pdCategories (targetValues (df.rows.filter
                (fun r => (target_col :: predictors).all
                  (cellComplete r))) target_col)
              nObs := (df.rows.filter
                (fun r => (target_col :: predictors).all
                  (cellComplete r))).length
              fitted := fp }
  else .error (.configError ((target_col :: predictors).filter
    (fun c => ! df.cols.contains c)))

/-- One scenario-table row: the scenario name and the predictor
values in predictor order. -/
structure ScenRow where
  escenario : String
  vals : List Val
deriving DecidableEq

/-- The scenario table builder `construir_df_escenarios`: one row per scenario, each predictor
filled from the scenario's mapping or `NaN`; keys outside
`predictors` are never read.  With no scenarios the column selection
`df_esc[["escenario"] + predictors]` raises a `KeyError` because the
empty frame has no columns. -/
def construir_df_escenarios (predictors : List String)
    (escenarios : List (String × Row)) : Except String (List ScenRow) :=
  match escenarios with
  | [] => .error "KeyError: columns not in empty scenario frame"
  | e0 :: rest => .ok ((e0 :: rest).map (fun e =>
      { escenario := e.1
        vals := predictors.map (fun p => (e.2.lookup p).getD Val.nan) }))

/-- The four output artifacts of one model pipeline, in the order the
source writes them. -/
def artifactNames (model_id : String) : List String :=
  [model_id ++ "_accuracy.png", model_id ++ "_loss.png",
   model_id ++ "_model.keras",
   model_id ++ "_predicciones_escenarios.csv"]

/-- One model pipeline run: training (aborting before any artifact on
a validation or data-quality failure), then the two curve images and
the exported model, then scenario scoring and its table.  Returns the
artifacts written, in order, and the error if the run aborted. -/
def runModelPipeline (df : Dataset) (target_col : String)
    (predictors numeric_features categorical_features : List String)
    (model_id : String) (escenarios : List (String × Row)) :
    List String × Option TrainError :=
  match entrenar_modelo_nn_prep df target_col predictors
      numeric_features categorical_features with
  | .error e => ([], some e)
  | .ok prep =>
    match construir_df_escenarios predictors escenarios with
    | .error e =>
      ([model_id ++ "_accuracy.png", model_id ++ "_loss.png",
        model_id ++ "_model.keras"], some (.scenarioError e))
    | .ok tbl =>
      match collectE
          (fun sr => transformRow prep.fitted (predictors.zip sr.vals))
          tbl with
      | .error e =>
        ([model_id ++ "_accuracy.png", model_id ++ "_loss.png",
          model_id ++ "_model.keras"], some (.scenarioError e))
      | .ok _ =>
        ([model_id ++ "_accuracy.png", model_id ++ "_loss.png",
          model_id ++ "_model.keras",
          model_id ++ "_predicciones_escenarios.csv"], none)

/-- Claim C7: if any configured target or predictor column is absent
from the dataset, training fails with a configuration error whose
list names exactly the missing columns, and no artifact is written
(the failure precedes filtering, splitting and fitting). -/
theorem claim_C7_missing_columns (df : Dataset) (target_col : String)
    (predictors numeric_features categorical_features : List String)
    (model_id : String) (escenarios : List (String × Row))
    (hmiss : (target_col :: predictors).filter
      (fun c => ! df.cols.contains c) ≠ []) :
    entrenar_modelo_nn_prep df target_col predictors numeric_features
        categorical_features
      = .error (.configError ((target_col :: predictors).filter
          (fun c => ! df.cols.contains c))) ∧
    (∀ c, c ∈ target_col :: predictors → ¬ c ∈ df.cols →
      c ∈ (target_col :: predictors).filter
        (fun c2 => ! df.cols.contains c2)) ∧
    (∀ c, c ∈ (target_col :: predictors).filter
        (fun c2 => ! df.cols.contains c2) →
      c ∈ target_col :: predictors ∧ ¬ c ∈ df.cols) ∧
    (runModelPipeline df target_col predictors numeric_features
        categorical_features model_id escenarios).1 = [] := by
  have herr : entrenar_modelo_nn_prep df target_col predictors
      numeric_features categorical_features
      = .error (.configError ((target_col :: predictors).filter
          (fun c => ! df.cols.contains c))) := by
    unfold entrenar_modelo_nn_prep
    rw [if_neg hmiss]
  refine ⟨herr, ?_, ?_, ?_⟩
  · intro c hc hnotin
    rw [List.mem_filter]
    exact ⟨hc, by simpa using hnotin⟩
  · intro c hcf
    rw [List.mem_filter] at hcf
    exact ⟨hcf.1, by simpa using hcf.2⟩
  · unfold runModelPipeline
    rw [herr]

/-- Witness for C7: a dataset lacking the configured target. -/
theorem claim_C7_missing_columns_witness :
    ((("x" :: ["p"]).filter
      (fun c => ! (Dataset.mk ["t", "p"] []).cols.contains c)) ≠ []) ∧
    (entrenar_modelo_nn_prep (Dataset.mk ["t", "p"] []) "x" ["p"] ["p"] []
      = .error (.configError (("x" :: ["p"]).filter
          (fun c => ! (Dataset.mk ["t", "p"] []).cols.contains c))) ∧
    (∀ c, c ∈ "x" :: ["p"] → ¬ c ∈ (Dataset.mk ["t", "p"] []).cols →
      c ∈ ("x" :: ["p"]).filter
        (fun c2 => ! (Dataset.mk ["t", "p"] []).cols.contains c2)) ∧
    (∀ c, c ∈ ("x" :: ["p"]).filter
        (fun c2 => ! (Dataset.mk ["t", "p"] []).cols.contains c2) →
      c ∈ "x" :: ["p"] ∧ ¬ c ∈ (Dataset.mk ["t", "p"] []).cols) ∧
    (runModelPipeline (Dataset.mk ["t", "p"] []) "x" ["p"] ["p"] []
        "m" []).1 = []) :=
  ⟨by decide,
   claim_C7_missing_columns (Dataset.mk ["t", "p"] []) "x" ["p"] ["p"]
     [] "m" [] (by decide)⟩

theorem stratifyCheck_error_of_small_class (y : List Val) (v : Val)
    (hv : v ∈ y) (hc : y.count v < 2) :
    ∃ msg, stratifyCheck y = .error (.dataQualityError msg) := by
  unfold stratifyCheck
  by_cases h0 : nTrain y.length = 0
  · rw [if_pos h0]
    exact ⟨_, rfl⟩
  · rw [if_neg h0, if_pos ⟨v, hv, hc⟩]
    exact ⟨_, rfl⟩

/-- Claim C8: if some target class has fewer than 2 members in the
filtered data, the stratified split's failure propagates as a
data-quality error (no artifact written, the class is not silently
dropped). -/
theorem claim_C8_stratify_failure (df : Dataset) (target_col : String)
    (predictors numeric_features categorical_features : List String)
    (model_id : String) (escenarios : List (String × Row)) (v : Val)
    (hnomiss : (target_col :: predictors).filter
      (fun c => ! df.cols.contains c) = [])
    (hv : v ∈ targetValues (df.rows.filter
      (fun r => (target_col :: predictors).all (cellComplete r)))
      target_col)
    (hcount : (targetValues (df.rows.filter
      (fun r => (target_col :: predictors).all (cellComplete r)))
        target_col).count v < 2) :
    (∃ msg, entrenar_modelo_nn_prep df target_col predictors
        numeric_features categorical_features
      = .error (.dataQualityError msg)) ∧
    (runModelPipeline df target_col predictors numeric_features
        categorical_features model_id escenarios).1 = [] := by
  obtain ⟨msg, hmsg⟩ := stratifyCheck_error_of_small_class _ v hv hcount
  have herr : entrenar_modelo_nn_prep df target_col predictors
      numeric_features categorical_features
      = .error (.dataQualityError msg) := by
    unfold entrenar_modelo_nn_prep
    rw [if_pos hnomiss, hmsg]
  refine ⟨⟨msg, herr⟩, ?_⟩
  unfold runModelPipeline
  rw [herr]

/-- A dataset whose filtered target column is ["a", "a", "b"]: class
"b" has a single member, too few to stratify. -/
def dfC8 : Dataset :=
  { cols := ["t", "p"]
    rows := [[("t", Val.str "a"), ("p", Val.num (mkRat 1 1))],
             [("t", Val.str "a"), ("p", Val.num (mkRat 2 1))],
             [("t", Val.str "b"), ("p", Val.num (mkRat 3 1))]] }

/-- Witness for C8 at the concrete dataset. -/
theorem claim_C8_stratify_failure_witness :
    ("t" :: ["p"]).filter (fun c => ! dfC8.cols.contains c) = [] ∧
    Val.str "b" ∈ targetValues (dfC8.rows.filter
      (fun r => ("t" :: ["p"]).all (cellComplete r))) "t" ∧
    (targetValues (dfC8.rows.filter
      (fun r => ("t" :: ["p"]).all (cellComplete r))) "t").count
        (Val.str "b") < 2 ∧
    ((∃ msg, entrenar_modelo_nn_prep dfC8 "t" ["p"] ["p"] []
        = .error (.dataQualityError msg)) ∧
     (runModelPipeline dfC8 "t" ["p"] ["p"] [] "m" []).1 = []) :=
  ⟨by decide, by decide, by decide,
   claim_C8_stratify_failure dfC8 "t" ["p"] ["p"] [] "m" []
     (Val.str "b") (by decide) (by decide) (by decide)⟩

/-- A dataset on which training succeeds: two classes with two
members each. -/
def dfC9 : Dataset :=
  { cols := ["t", "p"]
    rows := [[("t", Val.str "a"), ("p", Val.num (mkRat 1 1))],
             [("t", Val.str "a"), ("p", Val.num (mkRat 2 1))],
             [("t", Val.str "b"), ("p", Val.num (mkRat 1 1))],
             [("t", Val.str "b"), ("p", Val.num (mkRat 3 1))]] }

/-- Counterexample to claim C9: with an empty scenario dictionary the
run fails during scenario-table construction (pandas `KeyError` on
the empty frame), after the two curve images and the model file are
already written — a failing run that leaves a nonempty strict subset
of the artifacts. -/
theorem claim_C9_counterexample :
    (runModelPipeline dfC9 "t" ["p"] ["p"] [] "m" []).1
      = ["m_accuracy.png", "m_loss.png", "m_model.keras"] ∧
    (runModelPipeline dfC9 "t" ["p"] ["p"] [] "m" []).2.isSome
      = true ∧
    ¬ ((runModelPipeline dfC9 "t" ["p"] ["p"] [] "m" []).1 = [] ∨
       (runModelPipeline dfC9 "t" ["p"] ["p"] [] "m" []).1
         = artifactNames "m") := by
  with_unfolding_all decide

/-- Claim C9 as amended: the artifacts written by a model pipeline
run are always a prefix of the fixed sequence (accuracy curve, loss
curve, model file, scenario table): nothing on a pre-training
failure, the three training artifacts on a failure during scenario
scoring, all four on success; a run that reports no error has written
all four. -/
theorem claim_C9_amended (df : Dataset) (target_col : String)
    (predictors numeric_features categorical_features : List String)
    (model_id : String) (escenarios : List (String × Row)) :
    ((runModelPipeline df target_col predictors numeric_features
        categorical_features model_id escenarios).1 = [] ∨
     (runModelPipeline df target_col predictors numeric_features
        categorical_features model_id escenarios).1
       = (artifactNames model_id).take 3 ∨
     (runModelPipeline df target_col predictors numeric_features
        categorical_features model_id escenarios).1
       = artifactNames model_id) ∧
    ((runModelPipeline df target_col predictors numeric_features
        categorical_features model_id escenarios).2 = none →
      (runModelPipeline df target_col predictors numeric_features
        categorical_features model_id escenarios).1
        = artifactNames model_id) := by
  cases h1 : entrenar_modelo_nn_prep df target_col predictors
      numeric_features categorical_features
  · simp only [runModelPipeline, h1]
    exact ⟨Or.inl (by simp), fun h => by simp at h⟩
  · cases h2 : construir_df_escenarios predictors escenarios
    · simp only [runModelPipeline, h1, h2]
      exact ⟨Or.inr (Or.inl (by simp [artifactNames])),
        fun h => by simp at h⟩
    · rename_i prep tbl
      cases h3 : collectE
          (fun sr => transformRow prep.fitted (predictors.zip sr.vals))
          tbl
      · simp only [runModelPipeline, h1, h2, h3]
        exact ⟨Or.inr (Or.inl (by simp [artifactNames])),
          fun h => by simp at h⟩
      · simp only [runModelPipeline, h1, h2, h3]
        exact ⟨Or.inr (Or.inr (by simp [artifactNames])),
          fun _ => by simp [artifactNames]⟩

/-- Witness for C9 (amended) at a concrete successful run. -/
theorem claim_C9_amended_witness :
    (((runModelPipeline dfC9 "t" ["p"] ["p"] [] "m"
        [("e1", [("p", Val.num (mkRat 1 1))])]).1 = [] ∨
      (runModelPipeline dfC9 "t" ["p"] ["p"] [] "m"
        [("e1", [("p", Val.num (mkRat 1 1))])]).1
        = (artifactNames "m").take 3 ∨
      (runModelPipeline dfC9 "t" ["p"] ["p"] [] "m"
        [("e1", [("p", Val.num (mkRat 1 1))])]).1
        = artifactNames "m") ∧
     ((runModelPipeline dfC9 "t" ["p"] ["p"] [] "m"
        [("e1", [("p", Val.num (mkRat 1 1))])]).2 = none →
      (runModelPipeline dfC9 "t" ["p"] ["p"] [] "m"
        [("e1", [("p", Val.num (mkRat 1 1))])]).1
        = artifactNames "m")) ∧
    (runModelPipeline dfC9 "t" ["p"] ["p"] [] "m"
      [("e1", [("p", Val.num (mkRat 1 1))])]).1 = artifactNames "m" :=
  ⟨claim_C9_amended dfC9 "t" ["p"] ["p"] [] "m"
     [("e1", [("p", Val.num (mkRat 1 1))])],
   (claim_C9_amended dfC9 "t" ["p"] ["p"] [] "m"
     [("e1", [("p", Val.num (mkRat 1 1))])]).2
     (by with_unfolding_all decide)⟩

/-- Claim C10: assembling the scenario table silently ignores any
scenario key outside the predictor list (removing it changes
nothing, hence it never appears in the table and never affects the
prediction input), fills every predictor absent from a scenario with
the NaN sentinel, and emits one row per scenario in input order with
exactly one value per predictor. -/
theorem claim_C10_scenario_assembly (predictors : List String)
    (name : String) (vals : Row) (rest : List (String × Row))
    (k : String) (x : Val) (hk : ¬ k ∈ predictors) :
    construir_df_escenarios predictors ((name, (k, x) :: vals) :: rest)
      = construir_df_escenarios predictors ((name, vals) :: rest) ∧
    (∀ escenarios tbl,
      construir_df_escenarios predictors escenarios = .ok tbl →
      tbl.map (fun sr => sr.escenario) = escenarios.map Prod.fst ∧
      ∀ sr, sr ∈ tbl → sr.vals.length = predictors.length) ∧
    (∀ i (h1 : i < predictors.length),
      vals.lookup (predictors.get ⟨i, h1⟩) = none →
      ∀ tbl, construir_df_escenarios predictors ((name, vals) :: rest)
          = .ok tbl →
        ∃ sr, tbl.head? = some sr ∧
          ∃ h2 : i < sr.vals.length, sr.vals.get ⟨i, h2⟩ = Val.nan) := by
  have hlook : ∀ p, p ∈ predictors →
      List.lookup p ((k, x) :: vals) = List.lookup p vals := by
    intro p hp
    have hne : (p == k) = false := by
      rw [beq_eq_false_iff_ne]
      exact fun he => hk (he ▸ hp)
    simp [List.lookup, hne]
  refine ⟨?_, ?_, ?_⟩
  · simp only [construir_df_escenarios, List.map_cons, Except.ok.injEq,
      List.cons.injEq]
    refine ⟨?_, by simp⟩
    rw [ScenRow.mk.injEq]
    refine ⟨rfl, ?_⟩
    apply List.map_congr_left
    intro p hp
    rw [hlook p hp]
  · intro escenarios tbl htbl
    cases escenarios with
    | nil => exact absurd htbl (by simp [construir_df_escenarios])
    | cons e0 es =>
      simp only [construir_df_escenarios, Except.ok.injEq] at htbl
      subst htbl
      constructor
      · rw [List.map_map]
        apply List.map_congr_left
        intro e he
        rfl
      · intro sr hsr
        obtain ⟨e, he, hfe⟩ := List.mem_map.mp hsr
        rw [← hfe]
        simp
  · intro i h1 hnone tbl htbl
    simp only [construir_df_escenarios, Except.ok.injEq] at htbl
    subst htbl
    refine ⟨_, rfl, ?_⟩
    have h2 : i < (predictors.map
        (fun p => ((vals.lookup p).getD Val.nan))).length := by
      simpa using h1
    refine ⟨h2, ?_⟩
    rw [List.get_eq_getElem, List.getElem_map]
    rw [List.get_eq_getElem] at hnone
    rw [hnone]
    rfl

/-- Witness for C10 at a concrete predictor list and scenarios. -/
theorem claim_C10_scenario_assembly_witness :
    ¬ "junk" ∈ (["p1", "p2"] : List String) ∧
    (construir_df_escenarios ["p1", "p2"]
        (("e1", ("junk", Val.str "w") ::
          [("p1", Val.num (mkRat 5 1))]) ::
          [("e2", [("p2", Val.str "u")])])
      = construir_df_escenarios ["p1", "p2"]
        (("e1", [("p1", Val.num (mkRat 5 1))]) ::
          [("e2", [("p2", Val.str "u")])]) ∧
    (∀ escenarios tbl,
      construir_df_escenarios ["p1", "p2"] escenarios = .ok tbl →
      tbl.map (fun sr => sr.escenario) = escenarios.map Prod.fst ∧
      ∀ sr, sr ∈ tbl →
        sr.vals.length = (["p1", "p2"] : List String).length) ∧
    (∀ i (h1 : i < (["p1", "p2"] : List String).length),
      List.lookup ((["p1", "p2"] : List String).get ⟨i, h1⟩)
          [("p1", Val.num (mkRat 5 1))] = none →
      ∀ tbl, construir_df_escenarios ["p1", "p2"]
          (("e1", [("p1", Val.num (mkRat 5 1))]) ::
            [("e2", [("p2", Val.str "u")])]) = .ok tbl →
        ∃ sr, tbl.head? = some sr ∧
          ∃ h2 : i < sr.vals.length,
            sr.vals.get ⟨i, h2⟩ = Val.nan)) :=
  ⟨by decide,
   claim_C10_scenario_assembly ["p1", "p2"] "e1"
     [("p1", Val.num (mkRat 5 1))] [("e2", [("p2", Val.str "u")])]
     "junk" (Val.str "w") (by decide)⟩

end DataMining
